import Mathlib

/-!
Verification of the Swift-metadata flag and descriptor decoders of the
go-macho repository (packages `types/swift/protocols` and
`types/swift/fields`).

Machine integers are embedded as `Nat`; every Go bit operation
(`&`, `|`, `>>`, `<<`) is translated to the corresponding `Nat` bitwise
operation, and narrowing conversions (`uint16(x)`) to an explicit
`% 2 ^ 16`.  Go `fmt.Sprintf` rendering is embedded as explicit string
concatenation, with `%t` rendered by `goBool` and `%d` by `toString`.
-/

set_option autoImplicit false

namespace GoMacho

/-- Rendering of a Go `bool` under the `%t` verb of `fmt.Sprintf`. -/
def goBool (b : Bool) : String := if b then "true" else "false"

namespace protocols

/-- `ProtocolContextDescriptorFlags` is a Go `uint16`
(protocols.go line 39). -/
abbrev ProtocolContextDescriptorFlags := Nat

/-- Bit position of the class-constraint flag (protocols.go line 43). -/
def HasClassConstraint : Nat := 0

/-- Width of the class-constraint field (protocols.go line 44). -/
def HasClassConstraint_width : Nat := 1

/-- Bit position of the resilience flag (protocols.go line 46). -/
def IsResilient : Nat := 1

/-- Bit position of the special-protocol-kind field (protocols.go line 48). -/
def SpecialProtocolKind : Nat := 2

/-- Width of the special-protocol-kind field (protocols.go line 49). -/
def SpecialProtocolKind_width : Nat := 6

/-- Modelled from the spec: the source declares only the bit positions and
widths above, with no accessor functions; the spec describes extraction of
a sub-field of the packed 16-bit word at a given bit position and width. -/
def extractField (v pos width : Nat) : Nat := (v >>> pos) % 2 ^ width

/-- Extraction of the class-constraint bit (bit 0, width 1). -/
def classConstraintBit (v : Nat) : Nat :=
  extractField v HasClassConstraint HasClassConstraint_width

/-- Extraction of the resilience bit (bit 1, a single-bit flag). -/
def resilienceBit (v : Nat) : Nat :=
  extractField v IsResilient 1

/-- Extraction of the 6-bit special-protocol-kind field (bits 2-7). -/
def specialProtocolKindField (v : Nat) : Nat :=
  extractField v SpecialProtocolKind SpecialProtocolKind_width

/-- Modelled from the spec: recombination of the three extracted sub-values
at their declared bit positions into one packed word. -/
def recombineFlags (cc res spk : Nat) : Nat :=
  (cc <<< HasClassConstraint) ||| (res <<< IsResilient) ||| (spk <<< SpecialProtocolKind)

/-- `types.ContextDescriptorFlags` is a Go `uint32` defined in the `types`
package, outside the given sources. -/
abbrev ContextDescriptorFlags := Nat

/-- Modelled from the spec: `types.ContextDescriptorFlags.KindSpecific` is
not among the given sources; per the spec the context-descriptor flag word
carries the 16-bit kind-specific flags in its upper half. -/
def KindSpecific (f : Nat) : Nat := (f >>> 16) % 2 ^ 16

/-- Modelled from the spec: `types.ContextDescriptorFlags.String` is not
among the given sources and its text is unspecified beyond appearing inside
the `Flags: (...)` line; it is embedded as the decimal rendering. -/
def renderContextDescriptorFlags (f : Nat) : String := toString f

/-- `Descriptor` protocol-descriptor header (protocols.go lines 55-63).
Signed 32-bit offset fields become `Int`, unsigned counts become `Nat`. -/
structure Descriptor where
  Flags : Nat
  ParentOffset : Int
  NameOffset : Int
  NumRequirementsInSignature : Nat
  NumRequirements : Nat
  AssociatedTypeNamesOffset : Int
deriving Repr, DecidableEq

/-- `Descriptor.GetProtocolContextDescriptorFlags`
(protocols.go lines 65-67). -/
def GetProtocolContextDescriptorFlags (d : Descriptor) : Nat :=
  KindSpecific d.Flags

/-- `Descriptor.String` (protocols.go lines 69-75). -/
def renderDescriptor (d : Descriptor) : String :=
  "Flags: (" ++ renderContextDescriptorFlags d.Flags ++ ")\n" ++
  "NumRequirementsInSignature: " ++ toString d.NumRequirementsInSignature ++ "\n" ++
  "NumRequirements:            " ++ toString d.NumRequirements

/-- `GRKind` generic-requirement kind, a Go `uint8` (protocols.go line 77). -/
abbrev GRKind := Nat

/-- `GRKindProtocol` (protocols.go line 80). -/
def GRKindProtocol : Nat := 0

/-- `GRKindSameType` (protocols.go line 81). -/
def GRKindSameType : Nat := 1

/-- `GRKindBaseClass` (protocols.go line 82). -/
def GRKindBaseClass : Nat := 2

/-- `GRKindSameConformance` (protocols.go line 84). -/
def GRKindSameConformance : Nat := 3

/-- `GRKindLayout` (protocols.go line 85). -/
def GRKindLayout : Nat := 0x1F

/-- Modelled from the spec: the stringer-generated `GRKind.String`
(`types_string.go`, a `go:generate` artifact) is not among the given
sources; named kinds render their trimmed name and unknown discriminants
are surfaced as their raw numeric value, never an error. -/
def renderGRKind (k : Nat) : String :=
  match k with
  | 0 => "Protocol"
  | 1 => "SameType"
  | 2 => "BaseClass"
  | 3 => "SameConformance"
  | 0x1F => "Layout"
  | n => "GRKind(" ++ toString n ++ ")"

/-- `GenericRequirementFlags` is a Go `uint32` (protocols.go line 88). -/
abbrev GenericRequirementFlags := Nat

/-- `GenericRequirementFlags.HasKeyArgument` (protocols.go lines 90-92). -/
def HasKeyArgument (f : Nat) : Bool := f &&& 0x80 != 0

/-- `GenericRequirementFlags.HasExtraArgument` (protocols.go lines 93-95). -/
def HasExtraArgument (f : Nat) : Bool := f &&& 0x40 != 0

/-- `GenericRequirementFlags.Kind` (protocols.go lines 96-98). -/
def grKind (f : Nat) : Nat := f &&& 0x1F

/-- `GenericRequirementFlags.String` (protocols.go lines 99-101). -/
def renderGenericRequirementFlags (f : Nat) : String :=
  "key_arg: " ++ goBool (HasKeyArgument f) ++
  ", extra_arg: " ++ goBool (HasExtraArgument f) ++
  ", kind: " ++ renderGRKind (grKind f)

/-- `TargetGenericRequirementDescriptor` (protocols.go lines 103-107). -/
structure TargetGenericRequirementDescriptor where
  Flags : Nat
  Param : Int
  TypeOrProtocolOrConformanceOrLayout : Int
deriving Repr, DecidableEq

/-- `PRKind` protocol-requirement kind, a Go `uint8` (protocols.go line 109). -/
abbrev PRKind := Nat

/-- `BaseProtocol` (protocols.go line 112, `iota` value 0). -/
def BaseProtocol : Nat := 0

/-- `Method` (protocols.go line 113). -/
def Method : Nat := 1

/-- `Init` (protocols.go line 114). -/
def InitKind : Nat := 2

/-- `Getter` (protocols.go line 115). -/
def Getter : Nat := 3

/-- `Setter` (protocols.go line 116). -/
def Setter : Nat := 4

/-- `ReadCoroutine` (protocols.go line 117). -/
def ReadCoroutine : Nat := 5

/-- `ModifyCoroutine` (protocols.go line 118). -/
def ModifyCoroutine : Nat := 6

/-- `AssociatedTypeAccessFunction` (protocols.go line 119). -/
def AssociatedTypeAccessFunction : Nat := 7

/-- `AssociatedConformanceAccessFunction` (protocols.go line 120). -/
def AssociatedConformanceAccessFunction : Nat := 8

/-- Modelled from the spec: the stringer-generated `PRKind.String` is not
among the given sources; named kinds render their name and unknown
discriminants are surfaced as their raw numeric value. -/
def renderPRKind (k : Nat) : String :=
  match k with
  | 0 => "BaseProtocol"
  | 1 => "Method"
  | 2 => "Init"
  | 3 => "Getter"
  | 4 => "Setter"
  | 5 => "ReadCoroutine"
  | 6 => "ModifyCoroutine"
  | 7 => "AssociatedTypeAccessFunction"
  | 8 => "AssociatedConformanceAccessFunction"
  | n => "PRKind(" ++ toString n ++ ")"

/-- `ProtocolRequirementFlags` is a Go `uint32` (protocols.go line 123). -/
abbrev ProtocolRequirementFlags := Nat

/-- `ProtocolRequirementFlags.Kind` (protocols.go lines 125-127). -/
def prKind (f : Nat) : Nat := f &&& 0x0F

/-- `ProtocolRequirementFlags.IsInstance` (protocols.go lines 128-130). -/
def IsInstance (f : Nat) : Bool := f &&& 0x10 != 0

/-- `ProtocolRequirementFlags.IsAsync` (protocols.go lines 131-133). -/
def IsAsync (f : Nat) : Bool := f &&& 0x20 != 0

/-- `ProtocolRequirementFlags.IsSignedWithAddress`
(protocols.go lines 134-136). -/
def IsSignedWithAddress (f : Nat) : Bool :=
  prKind f != BaseProtocol

/-- `ProtocolRequirementFlags.ExtraDiscriminator`
(protocols.go lines 137-139); the Go `uint16` conversion of `f >> 16`
becomes an explicit `% 2 ^ 16`. -/
def ExtraDiscriminator (f : Nat) : Nat := (f >>> 16) % 2 ^ 16

/-- `ProtocolRequirementFlags.IsFunctionImpl` (protocols.go lines 140-147):
a switch on the decoded kind whose listed cases `Method, Init, Getter,
Setter, ReadCoroutine, ModifyCoroutine` return `!IsAsync()` and whose
default returns `false`. -/
def IsFunctionImpl (f : Nat) : Bool :=
  match prKind f with
  | 1 | 2 | 3 | 4 | 5 | 6 => !IsAsync f
  | _ => false

/-- `ProtocolRequirementFlags.String` (protocols.go lines 148-156). -/
def renderProtocolRequirementFlags (f : Nat) : String :=
  "kind: " ++ renderPRKind (prKind f) ++
  ", instance: " ++ goBool (IsInstance f) ++
  ", async: " ++ goBool (IsAsync f) ++
  ", signed_with_addr: " ++ goBool (IsSignedWithAddress f) ++
  ", extra_discriminator: " ++ toString (ExtraDiscriminator f) ++
  ", function_impl: " ++ goBool (IsFunctionImpl f)

/-- `TargetProtocolRequirement` (protocols.go lines 158-161). -/
structure TargetProtocolRequirement where
  Flags : Nat
  DefaultImplementation : Int
deriving Repr, DecidableEq

/-- `Protocol` (protocols.go lines 12-19); the Go embedded `Descriptor`
field and the `*Protocol` parent pointer become an explicit field `Descr`
and an `Option Protocol`. -/
inductive Protocol : Type where
  | mk (Name : String) (AssociatedType : String) (Parent : Option Protocol)
       (Descr : Descriptor)
       (SignatureRequirements : List TargetGenericRequirementDescriptor)
       (Requirements : List TargetProtocolRequirement) : Protocol

/-- Projection of `Protocol.Name`. -/
def Protocol.Name : Protocol → String
  | .mk n _ _ _ _ _ => n

/-- Projection of `Protocol.AssociatedType`. -/
def Protocol.AssociatedType : Protocol → String
  | .mk _ a _ _ _ _ => a

/-- Projection of `Protocol.Parent`. -/
def Protocol.Parent : Protocol → Option Protocol
  | .mk _ _ p _ _ _ => p

/-- Projection of the embedded `Descriptor` of a `Protocol`. -/
def Protocol.Descr : Protocol → Descriptor
  | .mk _ _ _ d _ _ => d

/-- Projection of `Protocol.SignatureRequirements`. -/
def Protocol.SignatureRequirements : Protocol → List TargetGenericRequirementDescriptor
  | .mk _ _ _ _ s _ => s

/-- Projection of `Protocol.Requirements`. -/
def Protocol.Requirements : Protocol → List TargetProtocolRequirement
  | .mk _ _ _ _ _ r => r

mutual

/-- `Protocol.String` (protocols.go lines 21-35): the associated-type line
is emitted only when `AssociatedTypeNamesOffset` is nonzero and the parent
block only when `ParentOffset` is nonzero; the `%s` of `p.Descriptor` is
`Descriptor.String`. -/
def renderProtocol : Protocol → String
  | .mk name assoc parent d _ _ =>
    let associateType : String :=
      if d.AssociatedTypeNamesOffset ≠ 0 then
        "AssociatedType: " ++ assoc ++ "\n"
      else ""
    let parentStr : String :=
      if d.ParentOffset ≠ 0 then
        "\n---\nParent " ++ renderParentRef parent ++ "\n"
      else ""
    "Name:           " ++ name ++ "\n" ++ associateType ++ renderDescriptor d ++ parentStr

/-- Rendering of the `*Protocol` parent pointer under `%s`: a nil pointer
prints `<nil>`, otherwise `Protocol.String` of the referent. -/
def renderParentRef : Option Protocol → String
  | some q => renderProtocol q
  | none => "<nil>"

end

/-- `ConformanceFlags` is a Go `uint32` (protocols.go line 163). -/
abbrev ConformanceFlags := Nat

/-- `UnusedLowBits` (protocols.go line 166). -/
def UnusedLowBits : Nat := 0x07

/-- `TypeMetadataKindMask` (protocols.go line 168). -/
def TypeMetadataKindMask : Nat := 0x7 <<< 3

/-- `TypeMetadataKindShift` (protocols.go line 169). -/
def TypeMetadataKindShift : Nat := 3

/-- `IsRetroactiveMask` (protocols.go line 171). -/
def IsRetroactiveMask : Nat := 0x01 <<< 6

/-- `IsSynthesizedNonUniqueMask` (protocols.go line 172). -/
def IsSynthesizedNonUniqueMask : Nat := 0x01 <<< 7

/-- `NumConditionalRequirementsMask` (protocols.go line 174). -/
def NumConditionalRequirementsMask : Nat := 0xFF <<< 8

/-- `NumConditionalRequirementsShift` (protocols.go line 175). -/
def NumConditionalRequirementsShift : Nat := 8

/-- `HasResilientWitnessesMask` (protocols.go line 177). -/
def HasResilientWitnessesMask : Nat := 0x01 <<< 16

/-- `HasGenericWitnessTableMask` (protocols.go line 178). -/
def HasGenericWitnessTableMask : Nat := 0x01 <<< 17

/-- `referenceKind` is a Go `uint32` (protocols.go line 182). -/
abbrev referenceKind := Nat

/-- `DirectTypeDescriptor` (protocols.go line 187). -/
def DirectTypeDescriptor : Nat := 0x00

/-- `IndirectTypeDescriptor` (protocols.go line 191). -/
def IndirectTypeDescriptor : Nat := 0x01

/-- `DirectObjCClassName` (protocols.go line 195). -/
def DirectObjCClassName : Nat := 0x02

/-- `IndirectObjCClass` (protocols.go line 204). -/
def IndirectObjCClass : Nat := 0x03

/-- Modelled from the spec: the stringer-generated `referenceKind.String`
is not among the given sources; the four named kinds render their name and
unknown discriminants (the three-bit values 4-7) are surfaced as their raw
numeric value. -/
def renderReferenceKind (k : Nat) : String :=
  match k with
  | 0 => "DirectTypeDescriptor"
  | 1 => "IndirectTypeDescriptor"
  | 2 => "DirectObjCClassName"
  | 3 => "IndirectObjCClass"
  | n => "referenceKind(" ++ toString n ++ ")"

/-- `ConformanceFlags.IsRetroactive` (protocols.go lines 218-220). -/
def IsRetroactive (f : Nat) : Bool := f &&& IsRetroactiveMask != 0

/-- `ConformanceFlags.IsSynthesizedNonUnique` (protocols.go lines 229-231). -/
def IsSynthesizedNonUnique (f : Nat) : Bool :=
  f &&& IsSynthesizedNonUniqueMask != 0

/-- `ConformanceFlags.GetNumConditionalRequirements`
(protocols.go lines 234-236); the Go `int` result is the nonnegative
masked-and-shifted value, so it is embedded as `Nat`. -/
def GetNumConditionalRequirements (f : Nat) : Nat :=
  (f &&& NumConditionalRequirementsMask) >>> NumConditionalRequirementsShift

/-- `ConformanceFlags.HasResilientWitnesses` (protocols.go lines 239-241). -/
def HasResilientWitnesses (f : Nat) : Bool :=
  f &&& HasResilientWitnessesMask != 0

/-- `ConformanceFlags.HasGenericWitnessTable` (protocols.go lines 245-247). -/
def HasGenericWitnessTable (f : Nat) : Bool :=
  f &&& HasGenericWitnessTableMask != 0

/-- `ConformanceFlags.GetTypeReferenceKind` (protocols.go lines 250-252). -/
def GetTypeReferenceKind (f : Nat) : Nat :=
  (f &&& TypeMetadataKindMask) >>> TypeMetadataKindShift

/-- `ConformanceFlags.String` (protocols.go lines 254-263). -/
def renderConformanceFlags (f : Nat) : String :=
  "retroactive: " ++ goBool (IsRetroactive f) ++
  ", synthesized_nonunique: " ++ goBool (IsSynthesizedNonUnique f) ++
  ", num_cond_reqs: " ++ toString (GetNumConditionalRequirements f) ++
  ", has_resilient_witnesses: " ++ goBool (HasResilientWitnesses f) ++
  ", has_generic_witness_table: " ++ goBool (HasGenericWitnessTable f) ++
  ", type_reference_kind: " ++ renderReferenceKind (GetTypeReferenceKind f)

end protocols

namespace fields

/-- `FieldRecordFlags` is a Go `uint32` (fields.go line 14). -/
abbrev FieldRecordFlags := Nat

/-- `IsIndirectCase` (fields.go line 18). -/
def IsIndirectCase : Nat := 0x1

/-- `IsVar` (fields.go line 20). -/
def IsVar : Nat := 0x2

/-- `IsArtificial` (fields.go line 22). -/
def IsArtificial : Nat := 0x4

/-- `FieldDescriptorKind` is a Go `uint16` (fields.go line 25). -/
abbrev FieldDescriptorKind := Nat

/-- `Struct` (fields.go line 29, `iota` value 0). -/
def Struct : Nat := 0

/-- `Class` (fields.go line 30). -/
def Class : Nat := 1

/-- `Enum` (fields.go line 31). -/
def Enum : Nat := 2

/-- `MultiPayloadEnum` (fields.go line 39). -/
def MultiPayloadEnum : Nat := 3

/-- `Protocol` (fields.go line 43). -/
def Protocol : Nat := 4

/-- `ClassProtocol` (fields.go line 46). -/
def ClassProtocol : Nat := 5

/-- `ObjCProtocol` (fields.go line 49). -/
def ObjCProtocol : Nat := 6

/-- `ObjCClass` (fields.go line 54). -/
def ObjCClass : Nat := 7

/-- `FDHeader` (fields.go lines 57-63). -/
structure FDHeader where
  MangledTypeNameOffset : Int
  SuperclassOffset : Int
  Kind : Nat
  FieldRecordSize : Nat
  NumFields : Nat
deriving Repr, DecidableEq

/-- `FieldRecord` (fields.go lines 65-69). -/
structure FieldRecord where
  Name : String
  MangledType : String
  Flags : String
deriving Repr, DecidableEq

/-- `FieldRecordType` (fields.go lines 71-75). -/
structure FieldRecordType where
  Flags : Nat
  MangledTypeNameOffset : Int
  FieldNameOffset : Int
deriving Repr, DecidableEq

/-- `FieldDescriptor` (fields.go lines 77-80); the Go embedded `FDHeader`
becomes the explicit field `Header`. -/
structure FieldDescriptor where
  Header : FDHeader
  FieldRecords : List FieldRecordType
deriving Repr, DecidableEq

/-- `Field` (fields.go lines 82-90). -/
structure Field where
  Address : Nat
  MangledType : String
  SuperClass : String
  Kind : String
  Records : List FieldRecord
  Offset : Int
  Descriptor : FieldDescriptor
deriving Repr, DecidableEq

/-- `Field.IsEnum` (fields.go lines 92-94): the descriptor kind (the Go
promoted field `f.Descriptor.Kind` through the embedded `FDHeader`) equals
`Enum` or `MultiPayloadEnum`. -/
def Field.IsEnum (f : Field) : Bool :=
  f.Descriptor.Header.Kind == Enum || f.Descriptor.Header.Kind == MultiPayloadEnum

/-- `Field.IsClass` (fields.go lines 95-97). -/
def Field.IsClass (f : Field) : Bool :=
  f.Descriptor.Header.Kind == Class || f.Descriptor.Header.Kind == ObjCClass

/-- `Field.IsProtocol` (fields.go lines 98-100). -/
def Field.IsProtocol (f : Field) : Bool :=
  f.Descriptor.Header.Kind == Protocol || f.Descriptor.Header.Kind == ClassProtocol ||
    f.Descriptor.Header.Kind == ObjCProtocol

end fields

end GoMacho

namespace GoMacho

/-! ### Shared bit-arithmetic lemmas -/

/-- Masking with a low-bit mask is reduction modulo the corresponding
power of two. -/
theorem and_two_pow_sub_one (f n : Nat) : f &&& (2 ^ n - 1) = f % 2 ^ n := by
  apply Nat.eq_of_testBit_eq
  intro i
  simp [Nat.testBit_and, Nat.testBit_mod_two_pow, Nat.testBit_two_pow_sub_one, Bool.and_comm]

/-- Masking with a shifted low-bit mask and shifting down extracts the
masked bit range as a modulus of the shifted value. -/
theorem and_shl_mask_shr (f n k : Nat) :
    (f &&& ((2 ^ n - 1) <<< k)) >>> k = (f >>> k) % 2 ^ n := by
  apply Nat.eq_of_testBit_eq
  intro i
  simp only [Nat.testBit_shiftRight, Nat.testBit_and, Nat.testBit_shiftLeft,
    Nat.testBit_mod_two_pow, Nat.testBit_two_pow_sub_one, Nat.add_sub_cancel_left]
  simp [Nat.le_add_right, Bool.and_comm]

/-- Testing a single-bit mask for zero is reading that bit. -/
theorem and_single_bit (f i : Nat) : (f &&& 2 ^ i != 0) = f.testBit i := by
  cases h : f.testBit i <;> simp [Nat.and_two_pow, h]

namespace protocols

/-! ### C1: protocol context-descriptor flag round-trip -/

/-- C1 counterexample: at the packed 16-bit value `0x100` (bit 8 set), the
recombination of the three extracted sub-fields of the protocol
context-descriptor kind-specific flags does not reproduce the original
value, refuting the round-trip claim as stated over all 16-bit values. -/
theorem C1_roundtrip_counterexample :
    recombineFlags (classConstraintBit 0x100) (resilienceBit 0x100)
      (specialProtocolKindField 0x100) ≠ 0x100 := by decide

/-- C1 (amended): for every 16-bit protocol context-descriptor
kind-specific flag value, recombining the extracted class-constraint bit
(bit 0), resilience bit (bit 1) and 6-bit special-protocol-kind field
(bits 2-7) at their bit positions reproduces the low byte `v % 2 ^ 8` of
the original packed value, so the round-trip holds exactly for values
whose bits 8-15 are all zero. -/
theorem C1_roundtrip_low_byte (v : Nat) (h : v < 2 ^ 16) :
    recombineFlags (classConstraintBit v) (resilienceBit v) (specialProtocolKindField v) =
      v % 2 ^ 8 := by
  clear h
  unfold recombineFlags classConstraintBit resilienceBit specialProtocolKindField extractField
    HasClassConstraint HasClassConstraint_width IsResilient SpecialProtocolKind
    SpecialProtocolKind_width
  apply Nat.eq_of_testBit_eq
  intro i
  simp only [Nat.testBit_or, Nat.testBit_shiftLeft, Nat.testBit_shiftRight,
    Nat.testBit_mod_two_pow, Nat.shiftRight_zero, Nat.shiftLeft_zero]
  rcases i with _ | _ | i
  · simp
  · simp [Nat.testBit_mod_two_pow]
  · by_cases hi : i < 6
    · simp [hi, Nat.succ_le_iff, show i + 2 - 2 = i by omega, show 1 + (i + 1) = i + 2 by omega,
        show 2 + i = i + 2 by omega, show i + 1 + 1 - 1 = i + 1 by omega,
        show i + 2 < 8 by omega]
    · simp [hi, show ¬(i + 2 < 8) by omega, show i + 2 - 2 = i by omega,
        show i + 1 + 1 - 1 = i + 1 by omega]

/-- C1 witness: the amended round-trip evaluated at the concrete 16-bit
value `0xABCD`. -/
theorem C1_roundtrip_low_byte_witness :
    recombineFlags (classConstraintBit 0xABCD) (resilienceBit 0xABCD)
      (specialProtocolKindField 0xABCD) = 0xABCD % 2 ^ 8 :=
  C1_roundtrip_low_byte 0xABCD (by decide)

/-! ### C2: decoding the synthetic Getter protocol-requirement flag word -/

/-- C2: the 32-bit protocol-requirement flag word built from kind `Getter`
in the low 4 bits, the instance bit `0x10` set, the async bit `0x20`
clear, and `0x1234` in the upper 16 bits decodes to exactly
`Kind = Getter`, `IsInstance = true`, `IsAsync = false`,
`ExtraDiscriminator = 0x1234` and `IsFunctionImpl = true`. -/
theorem C2_getter_flag_word_decodes :
    prKind (Getter ||| 0x10 ||| (0x1234 <<< 16)) = Getter ∧
    IsInstance (Getter ||| 0x10 ||| (0x1234 <<< 16)) = true ∧
    IsAsync (Getter ||| 0x10 ||| (0x1234 <<< 16)) = false ∧
    ExtraDiscriminator (Getter ||| 0x10 ||| (0x1234 <<< 16)) = 0x1234 ∧
    IsFunctionImpl (Getter ||| 0x10 ||| (0x1234 <<< 16)) = true := by
  decide

end protocols

end GoMacho

namespace GoMacho

namespace protocols

/-! ### C3: characterization of IsFunctionImpl -/

/-- C3: for every 32-bit protocol-requirement flag word, `IsFunctionImpl`
is true exactly when the decoded kind is one of `Method`, `Init`,
`Getter`, `Setter`, `ReadCoroutine`, `ModifyCoroutine` and the async bit
is clear; for every other decoded kind (`BaseProtocol`, the two
associated-access kinds, or any unnamed 4-bit value) it is false
regardless of the async bit. -/
theorem C3_IsFunctionImpl_characterization (f : Nat) :
    (IsFunctionImpl f = true ↔
      ((prKind f = Method ∨ prKind f = InitKind ∨ prKind f = Getter ∨ prKind f = Setter ∨
        prKind f = ReadCoroutine ∨ prKind f = ModifyCoroutine) ∧ IsAsync f = false)) ∧
    ((prKind f = BaseProtocol ∨ prKind f = AssociatedTypeAccessFunction ∨
        prKind f = AssociatedConformanceAccessFunction ∨ 9 ≤ prKind f) →
      IsFunctionImpl f = false) := by
  have hk : prKind f < 16 := by
    have h := and_two_pow_sub_one f 4
    norm_num at h
    unfold prKind
    rw [h]
    omega
  unfold IsFunctionImpl
  set k := prKind f with hdef
  interval_cases k <;>
    simp [Method, InitKind, Getter, Setter, ReadCoroutine, ModifyCoroutine, BaseProtocol,
      AssociatedTypeAccessFunction, AssociatedConformanceAccessFunction, Bool.not_eq_true']

/-- C3 witness: the characterization applied to the concrete flag word
`0x33` (kind `Getter` with the async bit set), where `IsFunctionImpl` is
false because the requirement is async. -/
theorem C3_IsFunctionImpl_characterization_witness :
    IsFunctionImpl 0x33 ≠ true :=
  fun h =>
    absurd ((C3_IsFunctionImpl_characterization 0x33).1.mp h).2 (by decide)

/-! ### C4: the conditional-requirement count field -/

/-- C4: for every 32-bit `ConformanceFlags` value,
`GetNumConditionalRequirements` returns bits 8-15 as an unsigned integer,
that value is below 256, and the result is unchanged under any
modification of the bits outside positions 8-15 (any `g` agreeing with `f`
on bits 8-15 gives the same result). -/
theorem C4_num_conditional_requirements (f g : Nat)
    (h : (f >>> 8) % 256 = (g >>> 8) % 256) :
    GetNumConditionalRequirements f = (f >>> 8) % 256 ∧
    GetNumConditionalRequirements f < 256 ∧
    GetNumConditionalRequirements f = GetNumConditionalRequirements g := by
  have key : ∀ x : Nat, GetNumConditionalRequirements x = (x >>> 8) % 256 := by
    intro x
    unfold GetNumConditionalRequirements NumConditionalRequirementsMask
      NumConditionalRequirementsShift
    have h255 : (2 ^ 8 - 1 : Nat) = 255 := by norm_num
    have h256 : (2 ^ 8 : Nat) = 256 := by norm_num
    have hx := and_shl_mask_shr x 8 8
    rw [h255, h256] at hx
    exact hx
  refine ⟨key f, ?_, ?_⟩
  · rw [key f]
    exact Nat.mod_lt _ (by norm_num)
  · rw [key f, key g, h]

/-- C4 witness: the count field evaluated at `0x0A00` and at `0xFF0AFF`,
two words agreeing on bits 8-15 and differing everywhere else. -/
theorem C4_num_conditional_requirements_witness :
    GetNumConditionalRequirements 0x0A00 = (0x0A00 >>> 8) % 256 ∧
    GetNumConditionalRequirements 0x0A00 < 256 ∧
    GetNumConditionalRequirements 0x0A00 = GetNumConditionalRequirements 0xFF0AFF :=
  C4_num_conditional_requirements 0x0A00 0xFF0AFF (by decide)

/-! ### C5: flag-word renderings -/

/-- C5: every flag-word rendering is the comma-separated `key: value` list
in the fixed order of its decoder — `key_arg, extra_arg, kind` for
generic-requirement flags; `kind, instance, async, signed_with_addr,
extra_discriminator, function_impl` for protocol-requirement flags;
`retroactive, synthesized_nonunique, num_cond_reqs,
has_resilient_witnesses, has_generic_witness_table, type_reference_kind`
for conformance flags — and each rendered value is the corresponding
decoder's output on that word. -/
theorem C5_render_fixed_order :
    (∀ f : Nat,
      renderGenericRequirementFlags f =
        "key_arg: " ++ goBool (HasKeyArgument f) ++
        ", extra_arg: " ++ goBool (HasExtraArgument f) ++
        ", kind: " ++ renderGRKind (grKind f)) ∧
    (∀ f : Nat,
      renderProtocolRequirementFlags f =
        "kind: " ++ renderPRKind (prKind f) ++
        ", instance: " ++ goBool (IsInstance f) ++
        ", async: " ++ goBool (IsAsync f) ++
        ", signed_with_addr: " ++ goBool (IsSignedWithAddress f) ++
        ", extra_discriminator: " ++ toString (ExtraDiscriminator f) ++
        ", function_impl: " ++ goBool (IsFunctionImpl f)) ∧
    (∀ f : Nat,
      renderConformanceFlags f =
        "retroactive: " ++ goBool (IsRetroactive f) ++
        ", synthesized_nonunique: " ++ goBool (IsSynthesizedNonUnique f) ++
        ", num_cond_reqs: " ++ toString (GetNumConditionalRequirements f) ++
        ", has_resilient_witnesses: " ++ goBool (HasResilientWitnesses f) ++
        ", has_generic_witness_table: " ++ goBool (HasGenericWitnessTable f) ++
        ", type_reference_kind: " ++ renderReferenceKind (GetTypeReferenceKind f)) :=
  ⟨fun _ => rfl, fun _ => rfl, fun _ => rfl⟩

end protocols

end GoMacho

namespace GoMacho

namespace protocols

/-! ### C6: structure of the Protocol rendering -/

/-- C6: for every `Protocol` value the rendering decomposes as the `Name`
line, then the `AssociatedType` line exactly when the header's
`AssociatedTypeNamesOffset` is nonzero, then the descriptor block, then
the `---` separator and parent rendering exactly when the header's
`ParentOffset` is nonzero; the `AssociatedType` line and the parent block
occur as substrings when their offsets are nonzero, and the `Name`,
`Flags`, `NumRequirementsInSignature` and `NumRequirements` lines are
present in every rendering. -/
theorem C6_protocol_rendering (p : Protocol) :
    renderProtocol p =
      "Name:           " ++ Protocol.Name p ++ "\n" ++
      (if (Protocol.Descr p).AssociatedTypeNamesOffset ≠ 0 then
        "AssociatedType: " ++ Protocol.AssociatedType p ++ "\n" else "") ++
      renderDescriptor (Protocol.Descr p) ++
      (if (Protocol.Descr p).ParentOffset ≠ 0 then
        "\n---\nParent " ++ renderParentRef (Protocol.Parent p) ++ "\n" else "") ∧
    ((Protocol.Descr p).AssociatedTypeNamesOffset ≠ 0 →
      ∃ u v, renderProtocol p = u ++ ("AssociatedType: " ++ Protocol.AssociatedType p ++ "\n") ++ v) ∧
    ((Protocol.Descr p).ParentOffset ≠ 0 →
      ∃ u v, renderProtocol p =
        u ++ ("\n---\nParent " ++ renderParentRef (Protocol.Parent p) ++ "\n") ++ v) ∧
    (∃ v, renderProtocol p = ("Name:           " ++ Protocol.Name p ++ "\n") ++ v) ∧
    (∃ u v, renderProtocol p =
      u ++ ("Flags: (" ++ renderContextDescriptorFlags (Protocol.Descr p).Flags ++ ")\n") ++ v) ∧
    (∃ u v, renderProtocol p =
      u ++ ("NumRequirementsInSignature: " ++
        toString (Protocol.Descr p).NumRequirementsInSignature ++ "\n") ++ v) ∧
    (∃ u v, renderProtocol p =
      u ++ ("NumRequirements:            " ++ toString (Protocol.Descr p).NumRequirements) ++ v) := by
  obtain ⟨name, assoc, parent, d, sigs, reqs⟩ := p
  simp only [Protocol.Name, Protocol.AssociatedType, Protocol.Parent, Protocol.Descr]
  have hmaster : renderProtocol (.mk name assoc parent d sigs reqs) =
      "Name:           " ++ name ++ "\n" ++
      (if d.AssociatedTypeNamesOffset ≠ 0 then "AssociatedType: " ++ assoc ++ "\n" else "") ++
      renderDescriptor d ++
      (if d.ParentOffset ≠ 0 then "\n---\nParent " ++ renderParentRef parent ++ "\n" else "") := rfl
  refine ⟨hmaster, ?_, ?_, ?_, ?_, ?_, ?_⟩
  · intro h
    refine ⟨"Name:           " ++ name ++ "\n",
      renderDescriptor d ++
        (if d.ParentOffset ≠ 0 then "\n---\nParent " ++ renderParentRef parent ++ "\n" else ""), ?_⟩
    rw [hmaster, if_pos h]
    simp only [String.append_assoc]
  · intro h
    refine ⟨"Name:           " ++ name ++ "\n" ++
      (if d.AssociatedTypeNamesOffset ≠ 0 then "AssociatedType: " ++ assoc ++ "\n" else "") ++
      renderDescriptor d, "", ?_⟩
    rw [hmaster, if_pos h]
    simp only [String.append_assoc, String.append_empty]
  · refine ⟨(if d.AssociatedTypeNamesOffset ≠ 0 then "AssociatedType: " ++ assoc ++ "\n" else "") ++
      renderDescriptor d ++
      (if d.ParentOffset ≠ 0 then "\n---\nParent " ++ renderParentRef parent ++ "\n" else ""), ?_⟩
    rw [hmaster]
    simp only [String.append_assoc]
  · refine ⟨"Name:           " ++ name ++ "\n" ++
      (if d.AssociatedTypeNamesOffset ≠ 0 then "AssociatedType: " ++ assoc ++ "\n" else ""),
      "NumRequirementsInSignature: " ++ toString d.NumRequirementsInSignature ++ "\n" ++
      "NumRequirements:            " ++ toString d.NumRequirements ++
      (if d.ParentOffset ≠ 0 then "\n---\nParent " ++ renderParentRef parent ++ "\n" else ""), ?_⟩
    rw [hmaster]
    simp only [renderDescriptor, String.append_assoc]
  · refine ⟨"Name:           " ++ name ++ "\n" ++
      (if d.AssociatedTypeNamesOffset ≠ 0 then "AssociatedType: " ++ assoc ++ "\n" else "") ++
      ("Flags: (" ++ renderContextDescriptorFlags d.Flags ++ ")\n"),
      "NumRequirements:            " ++ toString d.NumRequirements ++
      (if d.ParentOffset ≠ 0 then "\n---\nParent " ++ renderParentRef parent ++ "\n" else ""), ?_⟩
    rw [hmaster]
    simp only [renderDescriptor, String.append_assoc]
  · refine ⟨"Name:           " ++ name ++ "\n" ++
      (if d.AssociatedTypeNamesOffset ≠ 0 then "AssociatedType: " ++ assoc ++ "\n" else "") ++
      ("Flags: (" ++ renderContextDescriptorFlags d.Flags ++ ")\n") ++
      ("NumRequirementsInSignature: " ++ toString d.NumRequirementsInSignature ++ "\n"),
      (if d.ParentOffset ≠ 0 then "\n---\nParent " ++ renderParentRef parent ++ "\n" else ""), ?_⟩
    rw [hmaster]
    simp only [renderDescriptor, String.append_assoc]

/-- C6 witness: a concrete protocol with nonzero associated-type-names and
parent offsets and a nil parent pointer; its rendering contains the
associated-type line and the parent block. -/
theorem C6_protocol_rendering_witness :
    (∃ u v, renderProtocol (.mk "P" "A" none ⟨0, 1, 1, 0, 0, 1⟩ [] []) =
      u ++ ("AssociatedType: " ++ "A" ++ "\n") ++ v) ∧
    (∃ u v, renderProtocol (.mk "P" "A" none ⟨0, 1, 1, 0, 0, 1⟩ [] []) =
      u ++ ("\n---\nParent " ++ renderParentRef none ++ "\n") ++ v) :=
  ⟨(C6_protocol_rendering (.mk "P" "A" none ⟨0, 1, 1, 0, 0, 1⟩ [] [])).2.1 (by decide),
   (C6_protocol_rendering (.mk "P" "A" none ⟨0, 1, 1, 0, 0, 1⟩ [] [])).2.2.1 (by decide)⟩

/-! ### C8: unknown discriminants round-trip and render -/

/-- Rendering of an out-of-range generic-requirement kind surfaces the raw
numeric value. -/
theorem renderGRKind_of_unknown (k : Nat) (hk : k < 32)
    (h : ¬(k = 0 ∨ k = 1 ∨ k = 2 ∨ k = 3 ∨ k = 31)) :
    renderGRKind k = "GRKind(" ++ toString k ++ ")" := by
  interval_cases k <;> first | rfl | (simp at h)

/-- Rendering of an out-of-range type-reference kind surfaces the raw
numeric value. -/
theorem renderReferenceKind_of_unknown (k : Nat) (hk : k < 8) (h4 : 4 ≤ k) :
    renderReferenceKind k = "referenceKind(" ++ toString k ++ ")" := by
  interval_cases k <;> rfl

/-- C8: a kind discriminant outside the named variants is not an error:
the generic-requirement kind decoder returns the raw 5-bit value
(`f % 32`), and for an unnamed kind the flag rendering still succeeds and
surfaces that raw value; likewise the conformance type-reference kind
decoder returns the raw 3-bit value (`(f >>> 3) % 8`) and the conformance
rendering surfaces raw values 4-7. -/
theorem C8_unknown_discriminants_surfaced :
    (∀ f : Nat, grKind f = f % 32) ∧
    (∀ f : Nat, ¬(grKind f = GRKindProtocol ∨ grKind f = GRKindSameType ∨
        grKind f = GRKindBaseClass ∨ grKind f = GRKindSameConformance ∨
        grKind f = GRKindLayout) →
      ∃ u, renderGenericRequirementFlags f = u ++ ("GRKind(" ++ toString (grKind f) ++ ")")) ∧
    (∀ f : Nat, GetTypeReferenceKind f = (f >>> 3) % 8) ∧
    (∀ f : Nat, 4 ≤ GetTypeReferenceKind f →
      ∃ u, renderConformanceFlags f =
        u ++ ("referenceKind(" ++ toString (GetTypeReferenceKind f) ++ ")")) := by
  have hgr : ∀ f : Nat, grKind f = f % 32 := by
    intro f
    have h := and_two_pow_sub_one f 5
    norm_num at h
    exact h
  have htr : ∀ f : Nat, GetTypeReferenceKind f = (f >>> 3) % 8 := by
    intro f
    unfold GetTypeReferenceKind TypeMetadataKindMask TypeMetadataKindShift
    have h := and_shl_mask_shr f 3 3
    norm_num at h
    exact h
  refine ⟨hgr, ?_, htr, ?_⟩
  · intro f h
    simp only [GRKindProtocol, GRKindSameType, GRKindBaseClass, GRKindSameConformance,
      GRKindLayout] at h
    have hk : grKind f < 32 := by
      rw [hgr f]
      exact Nat.mod_lt f (by norm_num)
    refine ⟨"key_arg: " ++ goBool (HasKeyArgument f) ++ ", extra_arg: " ++
      goBool (HasExtraArgument f) ++ ", kind: ", ?_⟩
    rw [renderGenericRequirementFlags, renderGRKind_of_unknown (grKind f) hk h]
  · intro f h4
    have hk : GetTypeReferenceKind f < 8 := by
      rw [htr f]
      exact Nat.mod_lt _ (by norm_num)
    refine ⟨"retroactive: " ++ goBool (IsRetroactive f) ++ ", synthesized_nonunique: " ++
      goBool (IsSynthesizedNonUnique f) ++ ", num_cond_reqs: " ++
      toString (GetNumConditionalRequirements f) ++ ", has_resilient_witnesses: " ++
      goBool (HasResilientWitnesses f) ++ ", has_generic_witness_table: " ++
      goBool (HasGenericWitnessTable f) ++ ", type_reference_kind: ", ?_⟩
    rw [renderConformanceFlags, renderReferenceKind_of_unknown (GetTypeReferenceKind f) hk h4]

/-- C8 witness: the unknown generic-requirement kind 7 and the unknown
type-reference kind 4 (flag word `0x20`) are surfaced raw in the
renderings. -/
theorem C8_unknown_discriminants_surfaced_witness :
    (∃ u, renderGenericRequirementFlags 7 = u ++ ("GRKind(" ++ toString (grKind 7) ++ ")")) ∧
    (∃ u, renderConformanceFlags 0x20 =
      u ++ ("referenceKind(" ++ toString (GetTypeReferenceKind 0x20) ++ ")")) :=
  ⟨C8_unknown_discriminants_surfaced.2.1 7 (by decide),
   C8_unknown_discriminants_surfaced.2.2.2 0x20 (by decide)⟩

/-! ### C10: independence of the protocol-requirement sub-field decoders -/

/-- C10: each sub-field decoder of the protocol-requirement flag word
depends only on its own bit range: words agreeing on bits 0-3 decode the
same kind, agreeing on bit 4 the same instance flag, agreeing on bit 5 the
same async flag, and agreeing on bits 16-31 the same extra
discriminator. -/
theorem C10_subfield_decoders_independent (f g : Nat) :
    (f % 16 = g % 16 → prKind f = prKind g) ∧
    (f.testBit 4 = g.testBit 4 → IsInstance f = IsInstance g) ∧
    (f.testBit 5 = g.testBit 5 → IsAsync f = IsAsync g) ∧
    ((f >>> 16) % 2 ^ 16 = (g >>> 16) % 2 ^ 16 →
      ExtraDiscriminator f = ExtraDiscriminator g) := by
  refine ⟨?_, ?_, ?_, ?_⟩
  · intro h
    unfold prKind
    have hf := and_two_pow_sub_one f 4
    have hg := and_two_pow_sub_one g 4
    norm_num at hf hg
    rw [hf, hg, h]
  · intro h
    unfold IsInstance
    rw [show (0x10 : Nat) = 2 ^ 4 by norm_num, and_single_bit, and_single_bit, h]
  · intro h
    unfold IsAsync
    rw [show (0x20 : Nat) = 2 ^ 5 by norm_num, and_single_bit, and_single_bit, h]
  · intro h
    unfold ExtraDiscriminator
    exact h

/-- C10 witness: the independence statements applied to the concrete pair
`0x13` and `0x53`, which agree on bits 0-5 and 16-31 but differ at
bit 6. -/
theorem C10_subfield_decoders_independent_witness :
    prKind 0x13 = prKind 0x53 ∧ IsInstance 0x13 = IsInstance 0x53 ∧
    IsAsync 0x13 = IsAsync 0x53 ∧ ExtraDiscriminator 0x13 = ExtraDiscriminator 0x53 :=
  ⟨(C10_subfield_decoders_independent 0x13 0x53).1 (by decide),
   (C10_subfield_decoders_independent 0x13 0x53).2.1 (by decide),
   (C10_subfield_decoders_independent 0x13 0x53).2.2.1 (by decide),
   (C10_subfield_decoders_independent 0x13 0x53).2.2.2 (by decide)⟩

end protocols

namespace fields

/-! ### C7 and C9: field-descriptor kind predicates -/

/-- C7: for every `Field` value, `IsEnum` holds exactly for descriptor
kind `Enum` or `MultiPayloadEnum`, `IsClass` exactly for `Class` or
`ObjCClass`, and `IsProtocol` exactly for `Protocol`, `ClassProtocol` or
`ObjCProtocol`. -/
theorem C7_field_kind_predicates (f : Field) :
    (Field.IsEnum f = true ↔
      (f.Descriptor.Header.Kind = Enum ∨ f.Descriptor.Header.Kind = MultiPayloadEnum)) ∧
    (Field.IsClass f = true ↔
      (f.Descriptor.Header.Kind = Class ∨ f.Descriptor.Header.Kind = ObjCClass)) ∧
    (Field.IsProtocol f = true ↔
      (f.Descriptor.Header.Kind = Protocol ∨ f.Descriptor.Header.Kind = ClassProtocol ∨
        f.Descriptor.Header.Kind = ObjCProtocol)) := by
  refine ⟨?_, ?_, ?_⟩ <;>
    simp [Field.IsEnum, Field.IsClass, Field.IsProtocol, Enum, MultiPayloadEnum, Class,
      ObjCClass, Protocol, ClassProtocol, ObjCProtocol, Bool.or_eq_true, beq_iff_eq, or_assoc]

/-- C7 witness: the `IsEnum` characterization applied to a concrete field
whose descriptor kind is `Enum`. -/
theorem C7_field_kind_predicates_witness :
    Field.IsEnum ⟨0, "", "", "", [], 0, ⟨⟨0, 0, 2, 0, 0⟩, []⟩⟩ = true :=
  (C7_field_kind_predicates ⟨0, "", "", "", [], 0, ⟨⟨0, 0, 2, 0, 0⟩, []⟩⟩).1.mpr
    (Or.inl rfl)

/-- C9: the three kind predicates of a `Field` are pairwise mutually
exclusive, and all three are false when the descriptor kind is `Struct`
or any value outside the eight defined `FieldDescriptorKind` variants. -/
theorem C9_field_kind_predicates_exclusive (f : Field) :
    ¬(Field.IsEnum f = true ∧ Field.IsClass f = true) ∧
    ¬(Field.IsEnum f = true ∧ Field.IsProtocol f = true) ∧
    ¬(Field.IsClass f = true ∧ Field.IsProtocol f = true) ∧
    ((f.Descriptor.Header.Kind = Struct ∨ 8 ≤ f.Descriptor.Header.Kind) →
      Field.IsEnum f = false ∧ Field.IsClass f = false ∧ Field.IsProtocol f = false) := by
  refine ⟨?_, ?_, ?_, ?_⟩ <;>
    simp [Field.IsEnum, Field.IsClass, Field.IsProtocol, Enum, MultiPayloadEnum, Class,
      ObjCClass, Protocol, ClassProtocol, ObjCProtocol, Struct, Bool.or_eq_true, beq_iff_eq,
      Bool.or_eq_false_iff, beq_eq_false_iff_ne] <;>
    omega

/-- C9 witness: the all-false conclusion at a concrete field whose
descriptor kind is `Struct`. -/
theorem C9_field_kind_predicates_exclusive_witness :
    Field.IsEnum ⟨0, "", "", "", [], 0, ⟨⟨0, 0, 0, 0, 0⟩, []⟩⟩ = false ∧
    Field.IsClass ⟨0, "", "", "", [], 0, ⟨⟨0, 0, 0, 0, 0⟩, []⟩⟩ = false ∧
    Field.IsProtocol ⟨0, "", "", "", [], 0, ⟨⟨0, 0, 0, 0, 0⟩, []⟩⟩ = false :=
  (C9_field_kind_predicates_exclusive ⟨0, "", "", "", [], 0, ⟨⟨0, 0, 0, 0, 0⟩, []⟩⟩).2.2.2
    (Or.inl rfl)

end fields

end GoMacho
